import Mathlib

/-!
# Verification of the AliceVision depth-map Refine engine

A shallow embedding of `src/aliceVision/depthMap/Refine.cpp` and of the
image/camera plane transforms of `src/aliceVision/camera/IntrinsicsScaleOffset.hpp`.

Host-side control flow (constructor, `refineRc`, `refineAndFuseDepthSimMap`,
`optimizeDepthSimMap`, `exportVolumeInformation`, the two memory accessors) is
translated directly from the C++ source.  The numeric interiors of the CUDA
device kernels (`cuda_depthSimMapUpscaleAndFilter`, `cuda_volumeRefineSimilarity`,
`cuda_volumeRefineBestDepth`, ...) live in `.cu` files that are not part of the
sources here; following the specification they are modelled as pure per-pixel
sampling functions gathered in a `KernelModel`, with the structure the
specification describes (masked pixels carry a sentinel and are skipped,
per-target-camera contributions are summed into the volume, ...).

Machine reals (`float`/`double`) are modelled as exact rationals `ℚ`; machine
integers as `Nat`/`Int` (all the quantities involved are small sizes or counts,
far from any overflow boundary).
-/

/-- A pixel coordinate at working resolution. -/
abbrev Pix := Nat × Nat

/-- One (depth, similarity) pair, `float2` in the source. -/
abbrev DepthSim := ℚ × ℚ

/-- A depth/similarity map: one `DepthSim` per pixel (device buffer contents). -/
abbrev DepthSimMap := Pix → DepthSim

/-- A normal map: one 3-vector per pixel (`float3` in the source). -/
abbrev NormalMap := Pix → ℚ × ℚ × ℚ

/-- A half-open index range, `Range(begin, end)` in the source
(`begin`/`end` are Lean keywords, hence `rbegin`/`rend`). -/
structure Range where
  rbegin : Nat
  rend : Nat
deriving DecidableEq, Repr

/-- A rectangular region of interest: two half-open pixel ranges. -/
structure ROI where
  x : Range
  y : Range
deriving DecidableEq, Repr

/-- Membership of a pixel in a region of interest. -/
def ROI.contains (roi : ROI) (p : Pix) : Prop :=
  roi.x.rbegin ≤ p.1 ∧ p.1 < roi.x.rend ∧ roi.y.rbegin ≤ p.2 ∧ p.2 < roi.y.rend

instance (roi : ROI) (p : Pix) : Decidable (roi.contains p) := by
  unfold ROI.contains; infer_instance

/-- Modelled from the spec: `divideRoundUp` (mvsUtils common helper, not under
the given sources) — integer division rounding up, used for tile dimensions. -/
def divideRoundUp (x y : Nat) : Nat := (x + y - 1) / y

/-- Modelled from the spec: `downscaleROI` (ROI helper, not under the given
sources) — maps a full-resolution region to working resolution by integer
division by the downscale factor (§4.3 of the spec). -/
def downscaleROI (roi : ROI) (d : Nat) : ROI :=
  { x := { rbegin := roi.x.rbegin / d, rend := divideRoundUp roi.x.rend d },
    y := { rbegin := roi.y.rbegin / d, rend := divideRoundUp roi.y.rend d } }

/-- The 3D similarity volume: a fixed depth extent `dimZ` (third dimension of
the allocation) plus per-(pixel, depth-index) accumulated scores. -/
structure SimVol where
  dimZ : Nat
  data : Pix → Nat → ℚ

/-- `RefineParams` (configuration, immutable after construction).  C++ `int`
fields that only ever hold sizes are modelled as `Nat`;
`optimizationNbIterations` keeps its sign (`Int`) because negative values are
meaningful to the claims. -/
structure RefineParams where
  scale : Nat
  stepXY : Nat
  halfNbDepths : Nat
  optimizationNbIterations : Int
  useRefineFuse : Bool
  useColorOptimization : Bool
  useNormalMap : Bool
  exportIntermediateDepthSimMaps : Bool
  exportIntermediateCrossVolumes : Bool
  exportIntermediateVolume9pCsv : Bool
deriving DecidableEq, Repr

/-- The tile parameters used by the constructor (`mvsUtils::TileParams`):
maximum tile buffer dimensions in full-resolution pixels. -/
structure TileParams where
  bufferWidth : Nat
  bufferHeight : Nat
deriving DecidableEq, Repr

/-- A tile: reference camera, ordered target-camera list, region of interest,
total tile count for the job. -/
structure Tile where
  rc : Nat
  refineTCams : List Nat
  roi : ROI
  nbTiles : Nat
deriving DecidableEq, Repr

/-- Modelled from the spec: sentinel "no data" value written for pixels that
are masked / carry no estimate (a negative depth marks an invalid pixel). -/
def noDataDepthSim : DepthSim := (-1, 1)

/-- Modelled from the spec: the numeric interiors of the CUDA device kernels
(`deviceDepthSimilarityMap.cu`, `deviceSimilarityVolume.cu` — not under the
given sources).  Each field is a pure sampling function: `alphaValid` is the
upstream alpha mask of the reference camera at working resolution, `upsample`
the edge-aware interpolation of a coarse map, `pixSizeOf` the per-pixel
pixel-size proxy, `simScore` the filtered/inverted per-target-camera matching
score at one (pixel, depth-index), `fitBest` the sub-pixel curve fit through
the accumulated volume, `optResult` one full color-guided optimization of a
valid pixel, `upsampleNormal` the normal-map interpolation. -/
structure KernelModel where
  alphaValid : Pix → Bool
  upsample : DepthSimMap → Pix → DepthSim
  pixSizeOf : Pix → ℚ → ℚ
  simScore : Option NormalMap → Nat → Pix → Nat → ℚ
  fitBest : (Pix → Nat → ℚ) → DepthSimMap → Pix → DepthSim
  optResult : DepthSimMap → DepthSimMap → Int → Pix → DepthSim
  upsampleNormal : NormalMap → Pix → ℚ × ℚ × ℚ

/-- `cuda_depthSimMapUpscaleAndFilter`: upscale the coarse depth/sim map over
the region of interest, writing the sentinel for alpha-masked pixels
(modelled from the spec; pixels outside the region keep the old buffer
contents). -/
def cuda_depthSimMapUpscaleAndFilter (km : KernelModel) (out inMap : DepthSimMap)
    (roi : ROI) : DepthSimMap :=
  fun p =>
    if roi.contains p then
      if km.alphaValid p then km.upsample inMap p else noDataDepthSim
    else out p

/-- `cuda_depthSimMapComputePixSize`: replace the similarity channel by the
pixel-size proxy on valid pixels of the region (modelled from the spec;
sentinel pixels are left untouched). -/
def cuda_depthSimMapComputePixSize (km : KernelModel) (m : DepthSimMap)
    (roi : ROI) : DepthSimMap :=
  fun p =>
    if roi.contains p then
      if (m p).1 < 0 then m p else ((m p).1, km.pixSizeOf p (m p).1)
    else m p

/-- `cuda_normalMapUpscale`: upscale the coarse normal map over the region
(modelled from the spec). -/
def cuda_normalMapUpscale (km : KernelModel) (out inMap : NormalMap)
    (roi : ROI) : NormalMap :=
  fun p => if roi.contains p then km.upsampleNormal inMap p else out p

/-- The additive contribution of target camera `tc` at one voxel: zero outside
the region / depth range and on masked (sentinel-depth) pixels, otherwise the
filtered/inverted matching score (modelled from the spec: masked pixels are
excluded from accumulation; contributions are summed). -/
def refineContrib (km : KernelModel) (sgm : DepthSimMap) (nm : Option NormalMap)
    (tc : Nat) (depthRange : Nat × Nat) (roi : ROI) (p : Pix) (z : Nat) : ℚ :=
  if roi.contains p ∧ depthRange.1 ≤ z ∧ z < depthRange.2 ∧ 0 ≤ (sgm p).1 then
    km.simScore nm tc p z
  else 0

/-- `cuda_volumeRefineSimilarity`: add one target camera's contribution into
the shared similarity volume (modelled from the spec: pure summation). -/
def cuda_volumeRefineSimilarity (km : KernelModel) (vol : SimVol)
    (sgm : DepthSimMap) (nm : Option NormalMap) (tc : Nat)
    (depthRange : Nat × Nat) (roi : ROI) : SimVol :=
  { dimZ := vol.dimZ,
    data := fun p z => vol.data p z + refineContrib km sgm nm tc depthRange roi p z }

/-- `cuda_volumeRefineBestDepth`: per pixel of the region, write the sentinel
for masked pixels, otherwise the sub-pixel depth/sim fitted through the
accumulated volume (modelled from the spec: masked pixels are excluded from
the best-depth search). -/
def cuda_volumeRefineBestDepth (km : KernelModel) (out sgm : DepthSimMap)
    (vol : SimVol) (roi : ROI) : DepthSimMap :=
  fun p =>
    if roi.contains p then
      if (sgm p).1 < 0 then noDataDepthSim else km.fitBest vol.data sgm p
    else out p

/-- `cuda_depthSimMapCopyDepthOnly`: whole-buffer copy of the depth channel,
similarity forced to `defaultSim` (modelled from the spec pass-through case). -/
def cuda_depthSimMapCopyDepthOnly (out inMap : DepthSimMap) (defaultSim : ℚ) :
    DepthSimMap :=
  fun p => ((inMap p).1, defaultSim)

/-- `cuda_depthSimMapOptimizeGradientDescent`: color-guided optimization over
the region (modelled from the spec: masked pixels get the sentinel, valid
pixels the optimizer's result from the upscaled and refined maps). -/
def cuda_depthSimMapOptimizeGradientDescent (km : KernelModel)
    (out sgm refined : DepthSimMap) (nbIter : Int) (roi : ROI) : DepthSimMap :=
  fun p =>
    if roi.contains p then
      if (sgm p).1 < 0 then noDataDepthSim else km.optResult sgm refined nbIter p
    else out p

/-- The Refine engine after construction: the stored configuration plus the
dimensions of the device buffers allocated by the constructor. -/
structure Refine where
  tileParams : TileParams
  refineParams : RefineParams
  maxTileWidth : Nat
  maxTileHeight : Nat
  volDimZ : Nat
  hasNormalMapBuffer : Bool
  hasOptBuffers : Bool
deriving DecidableEq, Repr

/-- `Refine::Refine` (Refine.cpp:23-62), translated statement by statement:
no parameter validation of any kind, unconditional buffer sizing/allocation.
`hasNormalMapBuffer` / `hasOptBuffers` record which conditional buffers were
allocated. -/
def Refine.construct (tp : TileParams) (p : RefineParams) : Refine :=
  let downscale := p.scale * p.stepXY
  let maxTileWidth := divideRoundUp tp.bufferWidth downscale
  let maxTileHeight := divideRoundUp tp.bufferHeight downscale
  let nbDepthsToRefine := p.halfNbDepths * 2 + 1
  { tileParams := tp
    refineParams := p
    maxTileWidth := maxTileWidth
    maxTileHeight := maxTileHeight
    volDimZ := nbDepthsToRefine
    hasNormalMapBuffer := p.useNormalMap
    hasOptBuffers := p.useColorOptimization }

/-- Modelled from the spec: pitch alignment of a device buffer row — the
smallest multiple of the granularity `g` that is at least `x` bytes
(`CudaDeviceMemoryPitched` is not under the given sources; the padded byte
count of a buffer rounds each row up to the device pitch granularity). -/
def alignUp (x g : Nat) : Nat := ((x + g - 1) / g) * g

/-- Padded byte count of a 2D pitched buffer of `w × h` elements of
`es` bytes each, pitch granularity `g`. -/
def bytesPadded2D (g w h es : Nat) : Nat := alignUp (w * es) g * h

/-- Unpadded (logical) byte count of a 2D buffer. -/
def bytesUnpadded2D (w h es : Nat) : Nat := w * es * h

/-- Padded byte count of a 3D pitched buffer. -/
def bytesPadded3D (g w h d es : Nat) : Nat := alignUp (w * es) g * h * d

/-- Unpadded (logical) byte count of a 3D buffer. -/
def bytesUnpadded3D (w h d es : Nat) : Nat := w * es * h * d

/-- Element byte sizes of the engine's buffers: `float2` depth/sim maps. -/
def depthSimElemBytes : Nat := 8

/-- `float3` normal map elements. -/
def normalElemBytes : Nat := 12

/-- `TSimRefine` volume elements (half-precision similarity). -/
def simRefineElemBytes : Nat := 2

/-- `float` elements of the two optimization scratch buffers. -/
def optElemBytes : Nat := 4

/-- Total padded bytes of the buffers summed by
`Refine::getDeviceMemoryConsumption` (Refine.cpp:64-81): the three depth/sim
maps, the normal map (0 bytes when not allocated), the refine volume, and —
only when `useColorOptimization` — the two optimization scratch buffers. -/
def Refine.deviceBytesPadded (r : Refine) (g : Nat) : Nat :=
  bytesPadded2D g r.maxTileWidth r.maxTileHeight depthSimElemBytes
    + bytesPadded2D g r.maxTileWidth r.maxTileHeight depthSimElemBytes
    + bytesPadded2D g r.maxTileWidth r.maxTileHeight depthSimElemBytes
    + (if r.hasNormalMapBuffer then
         bytesPadded2D g r.maxTileWidth r.maxTileHeight normalElemBytes
       else 0)
    + bytesPadded3D g r.maxTileWidth r.maxTileHeight r.volDimZ simRefineElemBytes
    + (if r.refineParams.useColorOptimization then
         bytesPadded2D g r.maxTileWidth r.maxTileHeight optElemBytes
           + bytesPadded2D g r.maxTileWidth r.maxTileHeight optElemBytes
       else 0)

/-- Total unpadded bytes of the same buffers, as summed by
`Refine::getDeviceMemoryConsumptionUnpadded` (Refine.cpp:83-100). -/
def Refine.deviceBytesUnpadded (r : Refine) : Nat :=
  bytesUnpadded2D r.maxTileWidth r.maxTileHeight depthSimElemBytes
    + bytesUnpadded2D r.maxTileWidth r.maxTileHeight depthSimElemBytes
    + bytesUnpadded2D r.maxTileWidth r.maxTileHeight depthSimElemBytes
    + (if r.hasNormalMapBuffer then
         bytesUnpadded2D r.maxTileWidth r.maxTileHeight normalElemBytes
       else 0)
    + bytesUnpadded3D r.maxTileWidth r.maxTileHeight r.volDimZ simRefineElemBytes
    + (if r.refineParams.useColorOptimization then
         bytesUnpadded2D r.maxTileWidth r.maxTileHeight optElemBytes
           + bytesUnpadded2D r.maxTileWidth r.maxTileHeight optElemBytes
       else 0)

/-- `Refine::getDeviceMemoryConsumption`: padded byte total in megabytes
(`double(bytes) / (1024.0 * 1024.0)`, modelled exactly over `ℚ`). -/
def Refine.getDeviceMemoryConsumption (r : Refine) (g : Nat) : ℚ :=
  (r.deviceBytesPadded g : ℚ) / (1024 * 1024)

/-- `Refine::getDeviceMemoryConsumptionUnpadded`: logical byte total in
megabytes. -/
def Refine.getDeviceMemoryConsumptionUnpadded (r : Refine) : ℚ :=
  (r.deviceBytesUnpadded : ℚ) / (1024 * 1024)

/-- Contents of the engine's per-tile device buffers. -/
structure RefineState where
  sgmDepthPixSizeMap : DepthSimMap
  refinedDepthSimMap : DepthSimMap
  optimizedDepthSimMap : DepthSimMap
  normalMap : NormalMap
  volumeRefineSim : SimVol

/-- Buffer contents right after construction.  Device memory is allocated but
its numeric contents are unspecified; only the allocated volume depth extent
matters, and no theorem below depends on the numeric placeholders. -/
def Refine.initialState (r : Refine) : RefineState :=
  { sgmDepthPixSizeMap := fun _ => (0, 0)
    refinedDepthSimMap := fun _ => (0, 0)
    optimizedDepthSimMap := fun _ => (0, 0)
    normalMap := fun _ => (0, 0, 0)
    volumeRefineSim := { dimZ := r.volDimZ, data := fun _ _ => 0 } }

/-- Labels of the diagnostic files the exporter can be asked to produce. -/
inductive ExportLabel where
  | sgmUpscaled
  | refinedFused
  | afterRefine
deriving DecidableEq, Repr

/-- An invocation of the external diagnostics exporter
(`writeDepthSimMap`, `exportSimilarityVolumeCross`,
`exportSimilaritySamplesCSV`). -/
inductive RefineEvent where
  | exportDepthSimMap (label : ExportLabel)
  | exportVolumeCross (label : ExportLabel)
  | exportVolume9pCsv (label : ExportLabel)
deriving DecidableEq, Repr

/-- `Refine::exportVolumeInformation` (Refine.cpp:251-299): early return when
neither volume-export flag is set; otherwise each enabled export invokes the
external exporter once.  File reads/writes touch no engine buffer, so the
result is just the list of exporter invocations. -/
def Refine.exportVolumeInformation (r : Refine) (label : ExportLabel) :
    List RefineEvent :=
  if r.refineParams.exportIntermediateCrossVolumes = false ∧
      r.refineParams.exportIntermediateVolume9pCsv = false then
    []
  else
    (if r.refineParams.exportIntermediateCrossVolumes then
       [RefineEvent.exportVolumeCross label]
     else []) ++
    (if r.refineParams.exportIntermediateVolume9pCsv then
       [RefineEvent.exportVolume9pCsv label]
     else [])

/-- `Refine::refineAndFuseDepthSimMap` (Refine.cpp:163-225): zero-initialize
the similarity volume, fold every target camera's additive contribution into
it, export intermediate volume information, then extract the best sub-pixel
depth/sim map from the accumulated volume. -/
def Refine.refineAndFuseDepthSimMap (r : Refine) (km : KernelModel)
    (tile : Tile) (s : RefineState) : RefineState × List RefineEvent :=
  let downscaledRoi := downscaleROI tile.roi (r.refineParams.scale * r.refineParams.stepXY)
  let depthRange : Nat × Nat := (0, s.volumeRefineSim.dimZ)
  let volZero : SimVol := { dimZ := s.volumeRefineSim.dimZ, data := fun _ _ => 0 }
  let nm : Option NormalMap :=
    if r.refineParams.useNormalMap then some s.normalMap else none
  let vol := tile.refineTCams.foldl
    (fun v tc =>
      cuda_volumeRefineSimilarity km v s.sgmDepthPixSizeMap nm tc depthRange downscaledRoi)
    volZero
  let exports := r.exportVolumeInformation ExportLabel.afterRefine
  let refined :=
    cuda_volumeRefineBestDepth km s.refinedDepthSimMap s.sgmDepthPixSizeMap vol downscaledRoi
  ({ s with volumeRefineSim := vol, refinedDepthSimMap := refined }, exports)

/-- `Refine::optimizeDepthSimMap` (Refine.cpp:227-249): one call of the
color-guided gradient-descent kernel writing the optimized map. -/
def Refine.optimizeDepthSimMap (r : Refine) (km : KernelModel) (tile : Tile)
    (s : RefineState) : RefineState :=
  let downscaledRoi := downscaleROI tile.roi (r.refineParams.scale * r.refineParams.stepXY)
  { s with
    optimizedDepthSimMap :=
      cuda_depthSimMapOptimizeGradientDescent km s.optimizedDepthSimMap
        s.sgmDepthPixSizeMap s.refinedDepthSimMap
        r.refineParams.optimizationNbIterations downscaledRoi }

/-- Result of one `refineRc` call: the buffer contents, the exporter
invocations, and whether the optimization kernel ran. -/
structure RefineRun where
  state : RefineState
  exports : List RefineEvent
  optimizeInvoked : Bool

/-- `Refine::refineRc` (Refine.cpp:102-161), translated branch by branch:
upscale + filter, optional intermediate export, pixel-size computation,
optional normal-map upscale; then refine/fuse or depth-only pass-through copy
with similarity constant `1.0`; optional intermediate export; then
optimization (only when `useColorOptimization` and a strictly positive
iteration count) or a verbatim buffer copy. -/
def Refine.refineRc (r : Refine) (km : KernelModel) (tile : Tile)
    (inSgmDepthSimMap : DepthSimMap) (inSgmNormalMap : Option NormalMap)
    (s : RefineState) : RefineRun :=
  let downscaledRoi := downscaleROI tile.roi (r.refineParams.scale * r.refineParams.stepXY)
  let sgm1 := cuda_depthSimMapUpscaleAndFilter km s.sgmDepthPixSizeMap inSgmDepthSimMap downscaledRoi
  let exports1 : List RefineEvent :=
    if r.refineParams.exportIntermediateDepthSimMaps then
      [RefineEvent.exportDepthSimMap ExportLabel.sgmUpscaled]
    else []
  let sgm2 := cuda_depthSimMapComputePixSize km sgm1 downscaledRoi
  let nmap : NormalMap :=
    match r.refineParams.useNormalMap, inSgmNormalMap with
    | true, some nm => cuda_normalMapUpscale km s.normalMap nm downscaledRoi
    | _, _ => s.normalMap
  let s1 : RefineState := { s with sgmDepthPixSizeMap := sgm2, normalMap := nmap }
  let fuse : RefineState × List RefineEvent :=
    if r.refineParams.useRefineFuse then
      r.refineAndFuseDepthSimMap km tile s1
    else
      ({ s1 with
         refinedDepthSimMap :=
           cuda_depthSimMapCopyDepthOnly s1.refinedDepthSimMap s1.sgmDepthPixSizeMap 1 },
       [])
  let s2 := fuse.1
  let exports3 : List RefineEvent :=
    if r.refineParams.exportIntermediateDepthSimMaps then
      [RefineEvent.exportDepthSimMap ExportLabel.refinedFused]
    else []
  let opt : RefineState × Bool :=
    if r.refineParams.useColorOptimization = true ∧
        0 < r.refineParams.optimizationNbIterations then
      (r.optimizeDepthSimMap km tile s2, true)
    else
      ({ s2 with optimizedDepthSimMap := s2.refinedDepthSimMap }, false)
  { state := opt.1
    exports := exports1 ++ fuse.2 ++ exports3
    optimizeInvoked := opt.2 }

/-- `camera::IntrinsicsScaleOffset` (IntrinsicsScaleOffset.hpp): image size,
per-axis scale ("focal") and principal-point offset.  `double` is modelled as
exact `ℚ`. -/
structure IntrinsicsScaleOffset where
  w : Nat
  h : Nat
  scale : ℚ × ℚ
  offset : ℚ × ℚ
deriving DecidableEq, Repr

/-- `IntrinsicsScaleOffset::getPrincipalPoint` (IntrinsicsScaleOffset.hpp:68-75):
the offset plus half the image dimensions. -/
def IntrinsicsScaleOffset.getPrincipalPoint (c : IntrinsicsScaleOffset) : ℚ × ℚ :=
  (c.offset.1 + (c.w : ℚ) / 2, c.offset.2 + (c.h : ℚ) / 2)

/-- `IntrinsicsScaleOffset::cam2ima` (IntrinsicsScaleOffset.hpp:246-249):
componentwise product with the scale plus the principal point. -/
def IntrinsicsScaleOffset.cam2ima (c : IntrinsicsScaleOffset) (p : ℚ × ℚ) : ℚ × ℚ :=
  (p.1 * c.scale.1 + c.getPrincipalPoint.1, p.2 * c.scale.2 + c.getPrincipalPoint.2)

/-- `IntrinsicsScaleOffset::ima2cam` (IntrinsicsScaleOffset.hpp:252-262):
subtract the principal point, divide componentwise by the scale. -/
def IntrinsicsScaleOffset.ima2cam (c : IntrinsicsScaleOffset) (p : ℚ × ℚ) : ℚ × ℚ :=
  ((p.1 - c.getPrincipalPoint.1) / c.scale.1, (p.2 - c.getPrincipalPoint.2) / c.scale.2)

/-! ## Concrete instances used by the witness theorems -/

/-- A small concrete region of interest. -/
def roiEx : ROI := { x := { rbegin := 0, rend := 4 }, y := { rbegin := 0, rend := 4 } }

/-- A concrete tile with two target cameras. -/
def tileEx : Tile := { rc := 0, refineTCams := [1, 2], roi := roiEx, nbTiles := 1 }

/-- The same tile with the target cameras permuted. -/
def tileExSwapped : Tile := { rc := 0, refineTCams := [2, 1], roi := roiEx, nbTiles := 1 }

/-- A concrete parameter set with every phase enabled and no exports. -/
def paramsEx : RefineParams :=
  { scale := 1, stepXY := 1, halfNbDepths := 2, optimizationNbIterations := 100
    useRefineFuse := true, useColorOptimization := true, useNormalMap := false
    exportIntermediateDepthSimMaps := false, exportIntermediateCrossVolumes := false
    exportIntermediateVolume9pCsv := false }

/-- `paramsEx` with the refine/fuse phase disabled. -/
def paramsNoFuseEx : RefineParams := { paramsEx with useRefineFuse := false }

/-- `paramsEx` with the optimization phase disabled. -/
def paramsNoOptEx : RefineParams := { paramsEx with useColorOptimization := false }

/-- An invalid parameter set in the sense of the specification: zero depth
hypotheses half-width and a negative iteration count. -/
def paramsInvalidEx : RefineParams :=
  { paramsEx with halfNbDepths := 0, optimizationNbIterations := -1 }

/-- Concrete tile buffer dimensions. -/
def tpEx : TileParams := { bufferWidth := 4, bufferHeight := 4 }

/-- A concrete kernel model whose mask accepts every pixel. -/
def kmEx : KernelModel :=
  { alphaValid := fun _ => true
    upsample := fun m p => m p
    pixSizeOf := fun _ d => d / 2
    simScore := fun _ tc p z => (tc : ℚ) + (p.1 : ℚ) + (z : ℚ)
    fitBest := fun vol _ p => (vol p 0, vol p 1)
    optResult := fun _ refined _ p => refined p
    upsampleNormal := fun m p => m p }

/-- A concrete kernel model whose alpha mask rejects every pixel. -/
def kmMaskedEx : KernelModel := { kmEx with alphaValid := fun _ => false }

/-- Concrete input coarse depth/sim map. -/
def inDepthSimEx : DepthSimMap := fun _ => (2, 1)

/-- Concrete initial buffer contents. -/
def stateEx : RefineState := (Refine.construct tpEx paramsEx).initialState

/-- A concrete intrinsics instance with nonzero scale components. -/
def intrinsicsEx : IntrinsicsScaleOffset :=
  { w := 640, h := 480, scale := (2, 3), offset := (5, 7) }

/-! ## Helper lemmas -/

/-- `alignUp` never rounds below its input when the granularity is positive. -/
theorem le_alignUp (x g : Nat) (hg : 0 < g) : x ≤ alignUp x g := by
  unfold alignUp
  have h1 := Nat.div_add_mod (x + g - 1) g
  have h2 : (x + g - 1) % g < g := Nat.mod_lt _ hg
  rw [Nat.mul_comm]
  generalize hr : (x + g - 1) % g = m at h1 h2
  generalize hq : g * ((x + g - 1) / g) = t at h1 ⊢
  omega

/-- `divideRoundUp` is monotone in its numerator. -/
theorem divideRoundUp_mono {x1 x2 : Nat} (y : Nat) (h : x1 ≤ x2) :
    divideRoundUp x1 y ≤ divideRoundUp x2 y :=
  Nat.div_le_div_right (by omega)

/-- `alignUp` is monotone in its first argument. -/
theorem alignUp_mono {x1 x2 : Nat} (g : Nat) (h : x1 ≤ x2) :
    alignUp x1 g ≤ alignUp x2 g :=
  Nat.mul_le_mul_right _ (Nat.div_le_div_right (by omega))

/-- Padded 2D byte counts are monotone in both buffer dimensions. -/
theorem bytesPadded2D_mono (g es : Nat) {w1 w2 h1 h2 : Nat}
    (hw : w1 ≤ w2) (hh : h1 ≤ h2) :
    bytesPadded2D g w1 h1 es ≤ bytesPadded2D g w2 h2 es :=
  Nat.mul_le_mul (alignUp_mono g (Nat.mul_le_mul_right _ hw)) hh

/-- Unpadded 2D byte counts are monotone in both buffer dimensions. -/
theorem bytesUnpadded2D_mono (es : Nat) {w1 w2 h1 h2 : Nat}
    (hw : w1 ≤ w2) (hh : h1 ≤ h2) :
    bytesUnpadded2D w1 h1 es ≤ bytesUnpadded2D w2 h2 es :=
  Nat.mul_le_mul (Nat.mul_le_mul_right _ hw) hh

/-- Padded 3D byte counts are monotone in all three buffer dimensions. -/
theorem bytesPadded3D_mono (g es : Nat) {w1 w2 h1 h2 d1 d2 : Nat}
    (hw : w1 ≤ w2) (hh : h1 ≤ h2) (hd : d1 ≤ d2) :
    bytesPadded3D g w1 h1 d1 es ≤ bytesPadded3D g w2 h2 d2 es :=
  Nat.mul_le_mul (bytesPadded2D_mono g es hw hh) hd

/-- Unpadded 3D byte counts are monotone in all three buffer dimensions. -/
theorem bytesUnpadded3D_mono (es : Nat) {w1 w2 h1 h2 d1 d2 : Nat}
    (hw : w1 ≤ w2) (hh : h1 ≤ h2) (hd : d1 ≤ d2) :
    bytesUnpadded3D w1 h1 d1 es ≤ bytesUnpadded3D w2 h2 d2 es :=
  Nat.mul_le_mul (bytesUnpadded2D_mono es hw hh) hd

/-- Each buffer's unpadded byte count is at most its padded byte count. -/
theorem bytesUnpadded2D_le_padded (g w h es : Nat) (hg : 0 < g) :
    bytesUnpadded2D w h es ≤ bytesPadded2D g w h es :=
  Nat.mul_le_mul_right _ (le_alignUp _ _ hg)

/-- 3D version of `bytesUnpadded2D_le_padded`. -/
theorem bytesUnpadded3D_le_padded (g w h d es : Nat) (hg : 0 < g) :
    bytesUnpadded3D w h d es ≤ bytesPadded3D g w h d es :=
  Nat.mul_le_mul_right _ (bytesUnpadded2D_le_padded g w h es hg)

/-! ## C1 — construction-time parameter validation -/

/-- C1 counterexample: the claim "constructing the Refine engine rejects
invalid parameter combinations before any device buffer allocation; a
successfully constructed engine therefore always holds validated parameters"
is false on the code.  At the concrete invalid configuration with
`halfNbDepths = 0` and `optimizationNbIterations = -1`, `Refine::Refine`
completes normally, stores the invalid parameters verbatim, and has already
sized/allocated all device buffers (volume depth extent 1). -/
theorem refine_construct_accepts_invalid_params :
    paramsInvalidEx.halfNbDepths = 0
    ∧ paramsInvalidEx.optimizationNbIterations < 0
    ∧ (Refine.construct tpEx paramsInvalidEx).refineParams = paramsInvalidEx
    ∧ (Refine.construct tpEx paramsInvalidEx).volDimZ = 1
    ∧ (Refine.construct tpEx paramsInvalidEx).maxTileWidth = 4 := by
  decide

/-- C1 (amended): the `Refine` constructor performs no parameter validation at
all — for every parameter set (including `halfNbDepths = 0` and negative
`optimizationNbIterations`) construction succeeds, holds the given parameters
unchanged, and unconditionally sizes the device buffers, with volume depth
extent `halfNbDepths * 2 + 1`. -/
theorem refine_construct_total_no_validation (tp : TileParams) (p : RefineParams) :
    (Refine.construct tp p).refineParams = p
    ∧ (Refine.construct tp p).volDimZ = p.halfNbDepths * 2 + 1 :=
  ⟨rfl, rfl⟩

/-! ## C7 — monotonicity of the memory accessors -/

/-- C7: both memory-consumption accessors are monotone non-decreasing in the
tile buffer dimensions and in `halfNbDepths`: increasing any of these (the
other parameters held fixed) cannot decrease either reported megabyte total,
for every pitch granularity `g`. -/
theorem refine_memory_monotone (g : Nat) (tp1 tp2 : TileParams)
    (p : RefineParams) (d1 d2 : Nat)
    (hw : tp1.bufferWidth ≤ tp2.bufferWidth)
    (hh : tp1.bufferHeight ≤ tp2.bufferHeight) (hd : d1 ≤ d2) :
    (Refine.construct tp1 { p with halfNbDepths := d1 }).getDeviceMemoryConsumption g
      ≤ (Refine.construct tp2 { p with halfNbDepths := d2 }).getDeviceMemoryConsumption g
    ∧ (Refine.construct tp1 { p with halfNbDepths := d1 }).getDeviceMemoryConsumptionUnpadded
      ≤ (Refine.construct tp2 { p with halfNbDepths := d2 }).getDeviceMemoryConsumptionUnpadded := by
  have hW : divideRoundUp tp1.bufferWidth (p.scale * p.stepXY)
      ≤ divideRoundUp tp2.bufferWidth (p.scale * p.stepXY) := divideRoundUp_mono _ hw
  have hH : divideRoundUp tp1.bufferHeight (p.scale * p.stepXY)
      ≤ divideRoundUp tp2.bufferHeight (p.scale * p.stepXY) := divideRoundUp_mono _ hh
  have hD : d1 * 2 + 1 ≤ d2 * 2 + 1 := by omega
  have hP : (Refine.construct tp1 { p with halfNbDepths := d1 }).deviceBytesPadded g
      ≤ (Refine.construct tp2 { p with halfNbDepths := d2 }).deviceBytesPadded g := by
    simp only [Refine.construct, Refine.deviceBytesPadded]
    refine Nat.add_le_add (Nat.add_le_add (Nat.add_le_add (Nat.add_le_add
      (Nat.add_le_add ?_ ?_) ?_) ?_) ?_) ?_
    · exact bytesPadded2D_mono g _ hW hH
    · exact bytesPadded2D_mono g _ hW hH
    · exact bytesPadded2D_mono g _ hW hH
    · split_ifs
      · exact bytesPadded2D_mono g _ hW hH
      · exact le_rfl
    · exact bytesPadded3D_mono g _ hW hH hD
    · split_ifs
      · exact Nat.add_le_add (bytesPadded2D_mono g _ hW hH) (bytesPadded2D_mono g _ hW hH)
      · exact le_rfl
  have hU : (Refine.construct tp1 { p with halfNbDepths := d1 }).deviceBytesUnpadded
      ≤ (Refine.construct tp2 { p with halfNbDepths := d2 }).deviceBytesUnpadded := by
    simp only [Refine.construct, Refine.deviceBytesUnpadded]
    refine Nat.add_le_add (Nat.add_le_add (Nat.add_le_add (Nat.add_le_add
      (Nat.add_le_add ?_ ?_) ?_) ?_) ?_) ?_
    · exact bytesUnpadded2D_mono _ hW hH
    · exact bytesUnpadded2D_mono _ hW hH
    · exact bytesUnpadded2D_mono _ hW hH
    · split_ifs
      · exact bytesUnpadded2D_mono _ hW hH
      · exact le_rfl
    · exact bytesUnpadded3D_mono _ hW hH hD
    · split_ifs
      · exact Nat.add_le_add (bytesUnpadded2D_mono _ hW hH) (bytesUnpadded2D_mono _ hW hH)
      · exact le_rfl
  constructor
  · unfold Refine.getDeviceMemoryConsumption
    exact div_le_div_of_nonneg_right (by exact_mod_cast hP) (by norm_num) |>.trans_eq rfl
  · unfold Refine.getDeviceMemoryConsumptionUnpadded
    exact div_le_div_of_nonneg_right (by exact_mod_cast hU) (by norm_num) |>.trans_eq rfl

/-- C7 witness at a concrete pair of configurations. -/
theorem refine_memory_monotone_witness :
    ((Refine.construct { bufferWidth := 4, bufferHeight := 4 }
        { paramsEx with halfNbDepths := 2 }).getDeviceMemoryConsumption 512
      ≤ (Refine.construct { bufferWidth := 8, bufferHeight := 4 }
          { paramsEx with halfNbDepths := 3 }).getDeviceMemoryConsumption 512)
    ∧ ((Refine.construct { bufferWidth := 4, bufferHeight := 4 }
        { paramsEx with halfNbDepths := 2 }).getDeviceMemoryConsumptionUnpadded
      ≤ (Refine.construct { bufferWidth := 8, bufferHeight := 4 }
          { paramsEx with halfNbDepths := 3 }).getDeviceMemoryConsumptionUnpadded) :=
  refine_memory_monotone 512 { bufferWidth := 4, bufferHeight := 4 }
    { bufferWidth := 8, bufferHeight := 4 } paramsEx 2 3
    (by decide) (by decide) (by decide)

/-! ## C9 — padded total dominates unpadded total -/

/-- C9: for every engine and every positive pitch granularity,
`getDeviceMemoryConsumption` (padded) reports at least
`getDeviceMemoryConsumptionUnpadded` (logical); both accessors sum the same
set of buffers, with the optimization scratch buffers included only when
`useColorOptimization` is set. -/
theorem refine_padded_ge_unpadded (r : Refine) (g : Nat) (hg : 0 < g) :
    r.getDeviceMemoryConsumptionUnpadded ≤ r.getDeviceMemoryConsumption g := by
  have hB : r.deviceBytesUnpadded ≤ r.deviceBytesPadded g := by
    unfold Refine.deviceBytesUnpadded Refine.deviceBytesPadded
    refine Nat.add_le_add (Nat.add_le_add (Nat.add_le_add (Nat.add_le_add
      (Nat.add_le_add ?_ ?_) ?_) ?_) ?_) ?_
    · exact bytesUnpadded2D_le_padded g _ _ _ hg
    · exact bytesUnpadded2D_le_padded g _ _ _ hg
    · exact bytesUnpadded2D_le_padded g _ _ _ hg
    · split_ifs
      · exact bytesUnpadded2D_le_padded g _ _ _ hg
      · exact le_rfl
    · exact bytesUnpadded3D_le_padded g _ _ _ _ hg
    · split_ifs
      · exact Nat.add_le_add (bytesUnpadded2D_le_padded g _ _ _ hg)
          (bytesUnpadded2D_le_padded g _ _ _ hg)
      · exact le_rfl
  unfold Refine.getDeviceMemoryConsumption Refine.getDeviceMemoryConsumptionUnpadded
  exact div_le_div_of_nonneg_right (by exact_mod_cast hB) (by norm_num) |>.trans_eq rfl

/-- C9 witness at a concrete engine and granularity. -/
theorem refine_padded_ge_unpadded_witness :
    (Refine.construct tpEx paramsEx).getDeviceMemoryConsumptionUnpadded
      ≤ (Refine.construct tpEx paramsEx).getDeviceMemoryConsumption 512 :=
  refine_padded_ge_unpadded (Refine.construct tpEx paramsEx) 512 (by decide)

/-! ## C10 — cam2ima / ima2cam are mutually inverse -/

/-- C10: for every `IntrinsicsScaleOffset` with nonzero scale components, the
image/camera plane transforms are mutually inverse:
`ima2cam (cam2ima p) = p` and `cam2ima (ima2cam p) = p`. -/
theorem intrinsics_cam2ima_ima2cam_inverse (c : IntrinsicsScaleOffset)
    (p : ℚ × ℚ) (hx : c.scale.1 ≠ 0) (hy : c.scale.2 ≠ 0) :
    c.ima2cam (c.cam2ima p) = p ∧ c.cam2ima (c.ima2cam p) = p := by
  obtain ⟨p1, p2⟩ := p
  unfold IntrinsicsScaleOffset.ima2cam IntrinsicsScaleOffset.cam2ima
  constructor
  · simp only [Prod.mk.injEq]
    constructor <;> field_simp
  · simp only [Prod.mk.injEq]
    constructor <;> field_simp

/-- C10 witness at a concrete intrinsics instance and point. -/
theorem intrinsics_cam2ima_ima2cam_inverse_witness :
    intrinsicsEx.ima2cam (intrinsicsEx.cam2ima (10, 20)) = (10, 20)
    ∧ intrinsicsEx.cam2ima (intrinsicsEx.ima2cam (10, 20)) = (10, 20) :=
  intrinsics_cam2ima_ima2cam_inverse intrinsicsEx (10, 20) (by norm_num [intrinsicsEx]) (by norm_num [intrinsicsEx])

/-! ## Volume accumulation lemmas -/

/-- Folding per-target-camera volume contributions is plain pointwise
summation: the result has the initial depth extent, and each cell holds the
initial value plus the sum of the per-camera contributions. -/
theorem foldl_volumeRefineSim_eq (km : KernelModel) (sgm : DepthSimMap)
    (nm : Option NormalMap) (dr : Nat × Nat) (roi : ROI) (l : List Nat)
    (v0 : SimVol) :
    l.foldl (fun v tc => cuda_volumeRefineSimilarity km v sgm nm tc dr roi) v0
      = { dimZ := v0.dimZ,
          data := fun p z => v0.data p z
            + (l.map (fun tc => refineContrib km sgm nm tc dr roi p z)).sum } := by
  induction l generalizing v0 with
  | nil => cases v0; simp
  | cons tc l ih =>
      rw [List.foldl_cons, ih]
      simp [cuda_volumeRefineSimilarity, add_assoc]

/-! ## C2 — accumulation is order-independent over target cameras -/

/-- C2: permuting the target-camera list `refineTCams` of a tile (all other
tile fields equal) leaves the refine-and-fuse phase's result — the fused
similarity volume, the extracted depth/sim map, and the exporter invocations —
exactly unchanged: accumulation is a commutative sum over target cameras
(exact over `ℚ`, hence in particular within any floating-point tolerance). -/
theorem refineAndFuse_tcams_perm_invariant (r : Refine) (km : KernelModel)
    (s : RefineState) (t1 t2 : Tile)
    (hperm : t1.refineTCams.Perm t2.refineTCams)
    (hroi : t1.roi = t2.roi) (hrc : t1.rc = t2.rc) (hnb : t1.nbTiles = t2.nbTiles) :
    r.refineAndFuseDepthSimMap km t1 s = r.refineAndFuseDepthSimMap km t2 s := by
  have hsum : ∀ (nm : Option NormalMap) (dr : Nat × Nat) (roi : ROI) (p : Pix) (z : Nat),
      (t1.refineTCams.map
        (fun tc => refineContrib km s.sgmDepthPixSizeMap nm tc dr roi p z)).sum
        = (t2.refineTCams.map
            (fun tc => refineContrib km s.sgmDepthPixSizeMap nm tc dr roi p z)).sum :=
    fun nm dr roi p z => (hperm.map _).sum_eq
  simp only [Refine.refineAndFuseDepthSimMap, foldl_volumeRefineSim_eq, hroi, hsum]

/-- C2 witness: concrete engine, two-camera tile and its swapped twin. -/
theorem refineAndFuse_tcams_perm_invariant_witness :
    (Refine.construct tpEx paramsEx).refineAndFuseDepthSimMap kmEx tileEx stateEx
      = (Refine.construct tpEx paramsEx).refineAndFuseDepthSimMap kmEx tileExSwapped stateEx :=
  refineAndFuse_tcams_perm_invariant (Refine.construct tpEx paramsEx) kmEx stateEx
    tileEx tileExSwapped (by decide) rfl rfl rfl

/-! ## C5 — volume depth extent -/

/-- C5: the similarity volume's depth extent equals exactly
`2 * halfNbDepths + 1`: it is fixed by the constructor, holds for the buffers
right after construction, and is preserved by every `refineRc` call. -/
theorem refine_volume_depth_extent (tp : TileParams) (p : RefineParams)
    (km : KernelModel) (tile : Tile) (inD : DepthSimMap) (inN : Option NormalMap)
    (s : RefineState) :
    (Refine.construct tp p).volDimZ = 2 * p.halfNbDepths + 1
    ∧ (Refine.construct tp p).initialState.volumeRefineSim.dimZ = 2 * p.halfNbDepths + 1
    ∧ ((Refine.construct tp p).refineRc km tile inD inN s).state.volumeRefineSim.dimZ
        = s.volumeRefineSim.dimZ := by
  refine ⟨by simp [Refine.construct, Nat.mul_comm],
          by simp [Refine.construct, Refine.initialState, Nat.mul_comm], ?_⟩
  simp only [Refine.refineRc, Refine.refineAndFuseDepthSimMap,
    Refine.optimizeDepthSimMap, foldl_volumeRefineSim_eq]
  split <;> split <;> simp

/-! ## C3 — pass-through when refine/fuse is disabled -/

/-- C3: with `useRefineFuse = false`, the refined depth/sim map produced by
`refineRc` has, at every pixel, depth exactly equal to the upscaled-coarse
depth held in the engine's upscaled buffer and similarity equal to the fixed
pass-through constant `1.0`. -/
theorem refineRc_passthrough_when_no_fuse (r : Refine) (km : KernelModel)
    (tile : Tile) (inD : DepthSimMap) (inN : Option NormalMap) (s : RefineState)
    (h : r.refineParams.useRefineFuse = false) (p : Pix) :
    (r.refineRc km tile inD inN s).state.refinedDepthSimMap p
      = (((r.refineRc km tile inD inN s).state.sgmDepthPixSizeMap p).1, 1) := by
  simp only [Refine.refineRc, Refine.optimizeDepthSimMap, h]
  split <;> simp [cuda_depthSimMapCopyDepthOnly]

/-- C3 witness at a concrete pass-through configuration and pixel. -/
theorem refineRc_passthrough_when_no_fuse_witness :
    ((Refine.construct tpEx paramsNoFuseEx).refineRc kmEx tileEx inDepthSimEx
        none stateEx).state.refinedDepthSimMap (0, 0)
      = ((((Refine.construct tpEx paramsNoFuseEx).refineRc kmEx tileEx inDepthSimEx
            none stateEx).state.sgmDepthPixSizeMap (0, 0)).1, 1) :=
  refineRc_passthrough_when_no_fuse (Refine.construct tpEx paramsNoFuseEx) kmEx
    tileEx inDepthSimEx none stateEx rfl (0, 0)

/-! ## C4 — verbatim copy when optimization is disabled -/

/-- C4: with `useColorOptimization = false` or `optimizationNbIterations = 0`,
the optimized depth/sim map written by `refineRc` is identical (a whole-buffer
copy) to the refined-fused map, and the optimization kernel is not invoked. -/
theorem refineRc_optimize_disabled_copy (r : Refine) (km : KernelModel)
    (tile : Tile) (inD : DepthSimMap) (inN : Option NormalMap) (s : RefineState)
    (h : r.refineParams.useColorOptimization = false
      ∨ r.refineParams.optimizationNbIterations = 0) :
    (r.refineRc km tile inD inN s).state.optimizedDepthSimMap
      = (r.refineRc km tile inD inN s).state.refinedDepthSimMap
    ∧ (r.refineRc km tile inD inN s).optimizeInvoked = false := by
  have hc : ¬(r.refineParams.useColorOptimization = true
      ∧ 0 < r.refineParams.optimizationNbIterations) := by
    rcases h with h | h <;> simp [h]
  simp [Refine.refineRc, hc]

/-- C4 witness at a concrete configuration with optimization disabled. -/
theorem refineRc_optimize_disabled_copy_witness :
    ((Refine.construct tpEx paramsNoOptEx).refineRc kmEx tileEx inDepthSimEx
        none stateEx).state.optimizedDepthSimMap
      = ((Refine.construct tpEx paramsNoOptEx).refineRc kmEx tileEx inDepthSimEx
          none stateEx).state.refinedDepthSimMap
    ∧ ((Refine.construct tpEx paramsNoOptEx).refineRc kmEx tileEx inDepthSimEx
        none stateEx).optimizeInvoked = false :=
  refineRc_optimize_disabled_copy (Refine.construct tpEx paramsNoOptEx) kmEx
    tileEx inDepthSimEx none stateEx (Or.inl rfl)

/-- Summing a list mapped to the constant zero gives zero. -/
theorem list_sum_map_zero {α : Type} (l : List α) :
    (l.map (fun _ => (0 : ℚ))).sum = 0 := by
  induction l <;> simp [*]

/-! ## C6 — masked pixels are excluded and written with the sentinel -/

/-- C6: a pixel of the tile's (downscaled) region that the upstream alpha mask
flags invalid contributes nothing to the accumulated similarity volume (every
cell of its depth column stays at the initialization value 0), is excluded
from the best-depth search, and its refined and optimized outputs are written
with the sentinel "no data" value — no error is raised.  Quantified over every
pixel, this covers the all-masked tile: every region pixel ends at the
sentinel. -/
theorem refineRc_masked_pixels_sentinel (r : Refine) (km : KernelModel)
    (tile : Tile) (inD : DepthSimMap) (inN : Option NormalMap) (s : RefineState)
    (hfuse : r.refineParams.useRefineFuse = true) (p : Pix)
    (hin : (downscaleROI tile.roi (r.refineParams.scale * r.refineParams.stepXY)).contains p)
    (hmask : km.alphaValid p = false) :
    (∀ z, (r.refineRc km tile inD inN s).state.volumeRefineSim.data p z = 0)
    ∧ (r.refineRc km tile inD inN s).state.refinedDepthSimMap p = noDataDepthSim
    ∧ (r.refineRc km tile inD inN s).state.optimizedDepthSimMap p = noDataDepthSim := by
  have hsgm : cuda_depthSimMapComputePixSize km
      (cuda_depthSimMapUpscaleAndFilter km s.sgmDepthPixSizeMap inD
        (downscaleROI tile.roi (r.refineParams.scale * r.refineParams.stepXY)))
      (downscaleROI tile.roi (r.refineParams.scale * r.refineParams.stepXY)) p
      = noDataDepthSim := by
    norm_num [cuda_depthSimMapComputePixSize, cuda_depthSimMapUpscaleAndFilter,
      hin, hmask, noDataDepthSim]
  have hcontrib : ∀ (nm : Option NormalMap) (tc : Nat) (dr : Nat × Nat) (z : Nat),
      refineContrib km
        (cuda_depthSimMapComputePixSize km
          (cuda_depthSimMapUpscaleAndFilter km s.sgmDepthPixSizeMap inD
            (downscaleROI tile.roi (r.refineParams.scale * r.refineParams.stepXY)))
          (downscaleROI tile.roi (r.refineParams.scale * r.refineParams.stepXY)))
        nm tc dr
        (downscaleROI tile.roi (r.refineParams.scale * r.refineParams.stepXY)) p z
        = 0 := by
    intro nm tc dr z
    norm_num [refineContrib, hsgm, noDataDepthSim]
  have hvol : ∀ z, (r.refineRc km tile inD inN s).state.volumeRefineSim.data p z = 0 := by
    intro z
    simp only [Refine.refineRc, Refine.refineAndFuseDepthSimMap,
      Refine.optimizeDepthSimMap, foldl_volumeRefineSim_eq, hfuse]
    split <;> simp [hcontrib, list_sum_map_zero]
  have hbest : (r.refineRc km tile inD inN s).state.refinedDepthSimMap p
      = noDataDepthSim := by
    simp only [Refine.refineRc, Refine.refineAndFuseDepthSimMap,
      Refine.optimizeDepthSimMap, hfuse]
    split <;> norm_num [cuda_volumeRefineBestDepth, hin, hsgm, noDataDepthSim]
  have hopt : (r.refineRc km tile inD inN s).state.optimizedDepthSimMap p
      = noDataDepthSim := by
    simp only [Refine.refineRc, Refine.refineAndFuseDepthSimMap,
      Refine.optimizeDepthSimMap, hfuse]
    split
    · norm_num [cuda_depthSimMapOptimizeGradientDescent, hin, hsgm, noDataDepthSim]
    · norm_num [cuda_volumeRefineBestDepth, hin, hsgm, noDataDepthSim]
  exact ⟨hvol, hbest, hopt⟩

/-- C6 witness: an all-masking kernel model, concrete engine, tile and pixel. -/
theorem refineRc_masked_pixels_sentinel_witness :
    ((Refine.construct tpEx paramsEx).refineRc kmMaskedEx tileEx inDepthSimEx
        none stateEx).state.volumeRefineSim.data (0, 0) 0 = 0
    ∧ ((Refine.construct tpEx paramsEx).refineRc kmMaskedEx tileEx inDepthSimEx
        none stateEx).state.refinedDepthSimMap (0, 0) = noDataDepthSim
    ∧ ((Refine.construct tpEx paramsEx).refineRc kmMaskedEx tileEx inDepthSimEx
        none stateEx).state.optimizedDepthSimMap (0, 0) = noDataDepthSim :=
  ⟨(refineRc_masked_pixels_sentinel (Refine.construct tpEx paramsEx) kmMaskedEx
      tileEx inDepthSimEx none stateEx rfl (0, 0) (by decide) rfl).1 0,
   (refineRc_masked_pixels_sentinel (Refine.construct tpEx paramsEx) kmMaskedEx
      tileEx inDepthSimEx none stateEx rfl (0, 0) (by decide) rfl).2.1,
   (refineRc_masked_pixels_sentinel (Refine.construct tpEx paramsEx) kmMaskedEx
      tileEx inDepthSimEx none stateEx rfl (0, 0) (by decide) rfl).2.2⟩

/-! ## C8 — diagnostics export is effect-free and skipped when disabled -/

/-- C8: the numeric result of `refineRc` — the full buffer state — is
identical for any two settings of the three diagnostic export flags (export is
read-only with respect to the engine's buffers), and when all three flags are
disabled the external exporter is not invoked at all (no export events). -/
theorem refineRc_export_flags_effect_free (tp : TileParams) (p : RefineParams)
    (km : KernelModel) (tile : Tile) (inD : DepthSimMap) (inN : Option NormalMap)
    (s : RefineState) (e1 e2 e3 f1 f2 f3 : Bool) :
    ((Refine.construct tp { p with
        exportIntermediateDepthSimMaps := e1
        exportIntermediateCrossVolumes := e2
        exportIntermediateVolume9pCsv := e3 }).refineRc km tile inD inN s).state
      = ((Refine.construct tp { p with
          exportIntermediateDepthSimMaps := f1
          exportIntermediateCrossVolumes := f2
          exportIntermediateVolume9pCsv := f3 }).refineRc km tile inD inN s).state
    ∧ (e1 = false → e2 = false → e3 = false →
        ((Refine.construct tp { p with
            exportIntermediateDepthSimMaps := e1
            exportIntermediateCrossVolumes := e2
            exportIntermediateVolume9pCsv := e3 }).refineRc km tile inD inN s).exports
          = []) := by
  constructor
  · by_cases hf : p.useRefineFuse = true <;>
      simp [Refine.refineRc, Refine.refineAndFuseDepthSimMap,
        Refine.optimizeDepthSimMap, Refine.construct, hf]
  · intro h1 h2 h3
    subst h1; subst h2; subst h3
    by_cases hf : p.useRefineFuse = true <;>
      simp [Refine.refineRc, Refine.refineAndFuseDepthSimMap,
        Refine.exportVolumeInformation, Refine.construct, hf]

/-- C8 witness: concrete engine with all export flags off versus all on. -/
theorem refineRc_export_flags_effect_free_witness :
    ((Refine.construct tpEx { paramsEx with
        exportIntermediateDepthSimMaps := false
        exportIntermediateCrossVolumes := false
        exportIntermediateVolume9pCsv := false }).refineRc kmEx tileEx inDepthSimEx
        none stateEx).state
      = ((Refine.construct tpEx { paramsEx with
          exportIntermediateDepthSimMaps := true
          exportIntermediateCrossVolumes := true
          exportIntermediateVolume9pCsv := true }).refineRc kmEx tileEx inDepthSimEx
          none stateEx).state
    ∧ ((Refine.construct tpEx { paramsEx with
        exportIntermediateDepthSimMaps := false
        exportIntermediateCrossVolumes := false
        exportIntermediateVolume9pCsv := false }).refineRc kmEx tileEx inDepthSimEx
        none stateEx).exports = [] :=
  ⟨(refineRc_export_flags_effect_free tpEx paramsEx kmEx tileEx inDepthSimEx none
      stateEx false false false true true true).1,
   (refineRc_export_flags_effect_free tpEx paramsEx kmEx tileEx inDepthSimEx none
      stateEx false false false true true true).2 rfl rfl rfl⟩
